import Mathlib

set_option linter.unusedVariables false

/-!
Verification of the GPS tracker firmware (src/src/tracking.cpp).

The development shallowly embeds the core of the firmware:
  * `read_serial` — the byte-stream reader (tracking.cpp lines 104-125),
  * `wait_continue` / `waitLoop` / `sendATcommand` — the AT command/response
    engine's wait loop (lines 127-153),
  * `gps_encode` / `PUT_REQUEST` — the location tracker and upload pipeline
    (lines 186-256),
  * `sys_restart` — the restart handler (lines 328-342).

Coordinates are modelled as exact rationals; the C++ code compares doubles
with raw `!=`/`==` (no epsilon), which the exact equality on `ℚ` mirrors.
Machine time (`millis()`) is modelled as a natural-number clock.
-/

namespace Tracking

/-- `#define MESSAGE_BUFFER_SIZE 4097` (tracking.cpp line 38). -/
def MESSAGE_BUFFER_SIZE : ℕ := 4097

/-- One write of character `c` at index `i` of the scratch buffer
(`buffer[buff_pos] = c`). -/
def write_buf (b : ℕ → Char) (i : ℕ) (c : Char) : ℕ → Char :=
  fun j => if j = i then c else b j

/-- `memset(buffer, '\0', MESSAGE_BUFFER_SIZE)` at the entry of
`read_serial` (line 108): every cell of the buffer becomes NUL,
independently of its previous content. -/
def memset_buf : ℕ → Char := fun _ => Char.ofNat 0

/-- The `while (softSerial->available() > 0 && !bufferfull)` loop of
`read_serial` (lines 109-122).  `avail` is the byte sequence the serial
source makes available during this read cycle; `pos` is `buff_pos`.
Returns the buffer, the final `buff_pos`, the `bufferfull` flag, and the
list of buffer indices written by the loop (for the bounds-safety claim). -/
def read_go (b : ℕ → Char) (avail : List Char) (pos : ℕ) (ws : List ℕ) :
    (ℕ → Char) × ℕ × Bool × List ℕ :=
  match avail with
  | [] => (b, pos, false, ws)
  | c :: rest =>
    if pos = MESSAGE_BUFFER_SIZE - 1 then
      (b, pos, true, ws)
    else
      read_go (write_buf b pos c) rest (pos + 1) (ws ++ [pos])

/-- `read_serial` (tracking.cpp lines 104-125): clears the buffer, drains
the available bytes, then null-terminates (`buffer[buff_pos] = '\0'`,
line 124).  `prev` is the buffer content left by the previous call; the
`memset` at entry discards it.  Returns the final buffer, the final
`buff_pos`, the `bufferfull` flag, and all indices written. -/
def read_serial (prev : ℕ → Char) (avail : List Char) :
    (ℕ → Char) × ℕ × Bool × List ℕ :=
  let r := read_go memset_buf avail 0 []
  (write_buf r.1 r.2.1 (Char.ofNat 0), r.2.1, r.2.2.1, r.2.2.2 ++ [r.2.1])

/-- The condition of the `do { ... } while` wait loop of `sendATcommand`
(tracking.cpp line 143): `(millis() - send_time) < _timeout || ASSERT_BUFFER`.
The loop continues while this holds. -/
def wait_continue (elapsed timeout : ℕ) (fill_buffer : Bool) : Bool :=
  decide (elapsed < timeout) || fill_buffer

/-- A decoded GPS fix as exposed by the decoder boundary
(`gps.location.isValid()`, `gps.location.lat()`, `gps.location.lng()`).
Coordinates are modelled as exact rationals. -/
structure Fix where
  lat : ℚ
  lng : ℚ
  valid : Bool
  deriving DecidableEq, Repr

/-- The global coordinate state of tracking.cpp line 58-60:
`double _lat, _long, _prevLat, _prevLong, _newLat, _newLong;`
`bool isLocationUpdated;`. -/
structure TrackerState where
  _lat : ℚ
  _long : ℚ
  _prevLat : ℚ
  _prevLong : ℚ
  _newLat : ℚ
  _newLong : ℚ
  isLocationUpdated : Bool
  deriving DecidableEq, Repr

/-- The all-zero initial values of the globals (line 58-60). -/
def initState : TrackerState :=
  { _lat := 0, _long := 0, _prevLat := 0, _prevLong := 0,
    _newLat := 0, _newLong := 0, isLocationUpdated := false }

/-- The fractional digits printed by the Arduino formatter: the remainder
(represented as the exact fraction `rem / den`) is repeatedly multiplied by
10 and the integer part becomes the next digit — this is how `dtostrf` /
`Print::printFloat` emit exactly `decimalPlaces` digits. -/
def fracDigits : ℕ → ℕ → ℕ → List Char
  | 0, _, _ => []
  | k + 1, rem, den =>
    Char.ofNat (48 + rem * 10 / den) :: fracDigits k (rem * 10 % den) den

/-- Numerator of the value actually formatted by `String(x, 9)`: the
magnitude of `x` plus the rounding term `0.5 * 10^-9` added by `dtostrf`
before digit extraction, expressed over the denominator `2*10^9 * x.den`. -/
def rnd9num (x : ℚ) : ℕ := 2000000000 * x.num.natAbs + x.den

/-- Denominator matching `rnd9num`. -/
def rnd9den (x : ℚ) : ℕ := 2000000000 * x.den

/-- The nine fractional digits of `String(x, 9)`. -/
def fracPart9 (x : ℚ) : String :=
  String.mk (fracDigits 9 (rnd9num x % rnd9den x) (rnd9den x))

/-- Arduino `String(x, 9)` — sign, integer part, `'.'`, then exactly nine
fractional digits of the rounded magnitude `|x| + 0.5*10^-9
= rnd9num x / rnd9den x`. -/
def fmt9 (x : ℚ) : String :=
  (if x < 0 then "-" else "") ++ toString (rnd9num x / rnd9den x) ++ "."
    ++ fracPart9 x

/-- The JSON-shaped upload payload built at tracking.cpp line 246:
`"{\"lat\":" + String(_newLat, 9) + ",\"long\":" + String(_newLong, 9) + "}"`. -/
def gps_payload (lat lng : ℚ) : String :=
  "\x7b\"lat\":" ++ fmt9 lat ++ ",\"long\":" ++ fmt9 lng ++ "\x7d"

/-- `PUT_REQUEST` (tracking.cpp lines 186-195): the two AT exchanges it
issues through `sendATcommand`, in order — first
`"AT+QHTTPPUT=" + String(data_length) + ",30,60"`, then the payload itself. -/
def PUT_REQUEST (data : String) : List String :=
  ["AT+QHTTPPUT=" ++ toString data.length ++ ",30,60", data]

/-- `gps_encode` (tracking.cpp lines 197-256), parameterised by the decoder
result `g` for the ingested frame.  If the decoder reports a valid location,
`(lat, lng)` are copied into `_lat`/`_long` (lines 212-215).  Change
detection then compares against `_newLat`/`_newLong` with exact equality
(line 235); on change the new values are stored, `isLocationUpdated` is set
and `PUT_REQUEST` fires (lines 236-247); otherwise the previous values are
book-kept and `isLocationUpdated` is cleared (lines 250-255).  Returns the
new state and the list of AT exchanges issued. -/
def gps_encode (g : Fix) (s : TrackerState) : TrackerState × List String :=
  let s1 := if g.valid then { s with _lat := g.lat, _long := g.lng } else s
  if s1._lat ≠ s1._newLat ∨ s1._long ≠ s1._newLong then
    let s2 := { s1 with _newLat := s1._lat, _newLong := s1._long,
                        isLocationUpdated := true }
    (s2, PUT_REQUEST (gps_payload s2._newLat s2._newLong))
  else
    ({ s1 with _prevLat := s1._newLat, _prevLong := s1._newLong,
               isLocationUpdated := false }, [])

/-- The tracker states reachable by a sequence of ingested frames from the
all-zero initial globals, each frame summarised by its decoder result. -/
def run (gs : List Fix) : TrackerState :=
  gs.foldl (fun s g => (gps_encode g s).1) initState

end Tracking

namespace Tracking

/-- The concrete latitude 1.234567890 of the end-to-end scenario. -/
def lat0 : ℚ := Rat.mk' 123456789 100000000 (by decide) (by decide)

/-- The concrete longitude 36.987654321 of the end-to-end scenario. -/
def lng0 : ℚ := Rat.mk' 36987654321 1000000000 (by decide) (by decide)

/-- The `do { if (available) read_serial; } while (...)` loop of
`sendATcommand` (tracking.cpp lines 136-143).  `dur i` is the wall-clock
duration of the `i`-th loop body (availability poll plus any `read_serial`
work — one poll granularity); `recv i = some data` means bytes were
available at the `i`-th poll, in which case `read_serial` overwrites the
shared buffer with `data`, and `recv i = none` means none were, leaving the
buffer as it stood.  The loop repeats while `wait_continue` holds of the
time elapsed since the send.  `fuel` bounds the number of modelled
iterations; `none` means the loop had not exited within `fuel` iterations. -/
def waitLoop (dur : ℕ → ℕ) (recv : ℕ → Option (List Char)) (timeout : ℕ)
    (fill_buffer : Bool) : ℕ → ℕ → ℕ → List Char → Option (ℕ × List Char)
  | 0, _, _, _ => none
  | fuel + 1, i, elapsed, buf =>
    let buf' := (recv i).getD buf
    let elapsed' := elapsed + dur i
    if wait_continue elapsed' timeout fill_buffer then
      waitLoop dur recv timeout fill_buffer fuel (i + 1) elapsed' buf'
    else
      some (elapsed', buf')

/-- `sendATcommand` (tracking.cpp lines 127-153): flushes the serial
channels, transmits `CMD` exactly once (`softSerial->println(CMD)`, with no
retry logic), then runs the wait loop.  Returns the list of transmissions
made and the wait loop's outcome — its exit time (elapsed milliseconds
since the send) together with the captured buffer, which is taken as the
response whether or not the modem ever sent anything. -/
def sendATcommand (CMD : String) (_timeout : ℕ) (fill_buffer : Bool)
    (dur : ℕ → ℕ) (recv : ℕ → Option (List Char)) (fuel : ℕ) :
    List String × Option (ℕ × List Char) :=
  ([CMD], waitLoop dur recv _timeout fill_buffer fuel 0 0 [])

/-- Writing the bytes of `l` into the buffer at consecutive indices
starting from `pos` — the cumulative effect of the `read_serial` store
loop. -/
def writeList (b : ℕ → Char) (pos : ℕ) : List Char → (ℕ → Char)
  | [] => b
  | c :: rest => writeList (write_buf b pos c) (pos + 1) rest

/-- The externally observable actions of the restart handler. -/
inductive SysEvent where
  | wifi_disconnect
  | wifi_off
  | send_response
  | delay_ms (n : ℕ)
  | esp_restart
  deriving DecidableEq, Repr

/-- `sys_restart` (tracking.cpp lines 328-342) as the sequence of actions
it performs: `WiFi.disconnect()`, `WiFi.mode(WIFI_OFF)`,
`server.send(200, "text/html", SendHTML("Restarting ..."))`, `delay(5000)`,
`ESP.restart()`.  `send_ok` records whether the `server.send` attempt
succeeds; the handler never inspects it, so the trace is the same either
way. -/
def sys_restart (send_ok : Bool) : List SysEvent :=
  [SysEvent.wifi_disconnect, SysEvent.wifi_off, SysEvent.send_response,
   SysEvent.delay_ms 5000, SysEvent.esp_restart]

end Tracking

namespace Tracking

/-- Each call to `fracDigits k` emits exactly `k` digit characters. -/
theorem fracDigits_length (k rem den : ℕ) : (fracDigits k rem den).length = k := by
  induction k generalizing rem with
  | zero => rfl
  | succ k ih => simp [fracDigits, ih]

/-- Reading back the cell just written. -/
theorem write_buf_self (b : ℕ → Char) (i : ℕ) (c : Char) :
    write_buf b i c i = c := by
  simp [write_buf]

/-- A write leaves every other cell alone. -/
theorem write_buf_other (b : ℕ → Char) (i j : ℕ) (c : Char) (h : j ≠ i) :
    write_buf b i c j = b j := by
  simp [write_buf, h]

/-- `writeList` does not touch cells below the start position. -/
theorem writeList_of_lt (l : List Char) (b : ℕ → Char) (pos i : ℕ)
    (h : i < pos) : writeList b pos l i = b i := by
  induction l generalizing b pos with
  | nil => rfl
  | cons c rest ih =>
    show writeList (write_buf b pos c) (pos + 1) rest i = b i
    rw [ih _ _ (Nat.lt_succ_of_lt h), write_buf_other _ _ _ _ (Nat.ne_of_lt h)]

/-- `writeList` does not touch cells at or above the end position. -/
theorem writeList_of_ge (l : List Char) (b : ℕ → Char) (pos i : ℕ)
    (h : pos + l.length ≤ i) : writeList b pos l i = b i := by
  induction l generalizing b pos with
  | nil => rfl
  | cons c rest ih =>
    have h' : (pos + 1) + rest.length ≤ i := by
      simp only [List.length_cons] at h; omega
    show writeList (write_buf b pos c) (pos + 1) rest i = b i
    rw [ih _ _ h', write_buf_other _ _ _ _ (by omega)]

/-- Cells inside the written window hold the corresponding list entries. -/
theorem writeList_get (l : List Char) (b : ℕ → Char) (pos i : ℕ)
    (h1 : pos ≤ i) (h2 : i < pos + l.length) :
    writeList b pos l i = l.getD (i - pos) (Char.ofNat 0) := by
  induction l generalizing b pos with
  | nil => simp only [List.length_nil, Nat.add_zero] at h2; omega
  | cons c rest ih =>
    show writeList (write_buf b pos c) (pos + 1) rest i = _
    rcases Nat.eq_or_lt_of_le h1 with he | hlt
    · rw [writeList_of_lt _ _ _ _ (by omega), ← he, Nat.sub_self]
      simp [write_buf]
    · have h2' : i < (pos + 1) + rest.length := by
        simp only [List.length_cons] at h2; omega
      rw [ih _ _ hlt h2']
      have hsub : i - pos = (i - (pos + 1)) + 1 := by omega
      rw [hsub, List.getD_cons_succ]

/-- `getD` inside the taken prefix agrees with `getD` on the whole list. -/
theorem getD_take (l : List Char) (k i : ℕ) (d : Char) (h : i < k) :
    (l.take k).getD i d = l.getD i d := by
  induction l generalizing k i with
  | nil => simp
  | cons c rest ih =>
    cases k with
    | zero => omega
    | succ k' =>
      cases i with
      | zero => simp
      | succ i' => simpa using ih k' i' (by omega)

/-- Complete characterisation of the `read_serial` store loop: starting at
`pos ≤ capacity - 1` it stores the first `capacity - 1 - pos` available
bytes (or all of them if fewer), stops at the capacity bound, reports
overflow exactly when bytes were left unconsumed at the bound, and writes
exactly the indices of the filled window. -/
theorem read_go_spec (avail : List Char) (b : ℕ → Char) (pos : ℕ)
    (ws : List ℕ) (h : pos ≤ MESSAGE_BUFFER_SIZE - 1) :
    read_go b avail pos ws =
      (writeList b pos (avail.take (MESSAGE_BUFFER_SIZE - 1 - pos)),
       min (pos + avail.length) (MESSAGE_BUFFER_SIZE - 1),
       decide (MESSAGE_BUFFER_SIZE - 1 - pos < avail.length),
       ws ++ List.range' pos (min avail.length (MESSAGE_BUFFER_SIZE - 1 - pos))) := by
  induction avail generalizing b pos ws with
  | nil =>
    simp [read_go, writeList, Nat.min_eq_left h]
  | cons c rest ih =>
    rw [read_go]
    by_cases hp : pos = MESSAGE_BUFFER_SIZE - 1
    · subst hp
      simp [writeList, Nat.sub_self, Nat.min_eq_right (Nat.le_add_right _ _)]
    · have hp' : pos < MESSAGE_BUFFER_SIZE - 1 := Nat.lt_of_le_of_ne h hp
      rw [if_neg hp, ih _ _ _ (by omega)]
      have e1 : MESSAGE_BUFFER_SIZE - 1 - pos
          = (MESSAGE_BUFFER_SIZE - 1 - (pos + 1)) + 1 := by omega
      have e2 : min ((pos + 1) + rest.length) (MESSAGE_BUFFER_SIZE - 1)
          = min (pos + (rest.length + 1)) (MESSAGE_BUFFER_SIZE - 1) := by omega
      have e3 : decide (MESSAGE_BUFFER_SIZE - 1 - (pos + 1) < rest.length)
          = decide (MESSAGE_BUFFER_SIZE - 1 - pos < rest.length + 1) :=
        decide_eq_decide.mpr (by omega)
      have e4 : min (rest.length + 1) (MESSAGE_BUFFER_SIZE - 1 - pos)
          = (min rest.length (MESSAGE_BUFFER_SIZE - 1 - (pos + 1))) + 1 := by omega
      simp only [Prod.mk.injEq, List.length_cons]
      refine ⟨?_, ?_, ?_, ?_⟩
      · rw [e1, List.take_succ_cons]; rfl
      · rw [e2]
      · rw [e3]
      · rw [e4, List.range'_succ, List.append_assoc]
        rfl

/-- `read_serial` in closed form: the stored prefix, the final `buff_pos`
(the number of bytes stored), the overflow flag, and the written indices. -/
theorem read_serial_eq (prev : ℕ → Char) (avail : List Char) :
    read_serial prev avail =
      (write_buf
         (writeList memset_buf 0 (avail.take (MESSAGE_BUFFER_SIZE - 1)))
         (min avail.length (MESSAGE_BUFFER_SIZE - 1)) (Char.ofNat 0),
       min avail.length (MESSAGE_BUFFER_SIZE - 1),
       decide (MESSAGE_BUFFER_SIZE - 1 < avail.length),
       List.range' 0 (min avail.length (MESSAGE_BUFFER_SIZE - 1))
         ++ [min avail.length (MESSAGE_BUFFER_SIZE - 1)]) := by
  simp only [read_serial]
  rw [read_go_spec _ _ _ _ (Nat.zero_le _)]
  simp

/-- C3: a source producing at least `MESSAGE_BUFFER_SIZE` bytes in one read
cycle makes `read_serial` store exactly `MESSAGE_BUFFER_SIZE - 1` bytes
(the first that many offered, in order), raise the buffer-full flag, and
write no buffer index at or past `MESSAGE_BUFFER_SIZE`. -/
theorem C3_overflow_truncates (prev : ℕ → Char) (avail : List Char)
    (h : MESSAGE_BUFFER_SIZE ≤ avail.length) :
    (read_serial prev avail).2.1 = MESSAGE_BUFFER_SIZE - 1 ∧
    (read_serial prev avail).2.2.1 = true ∧
    (∀ i, i < MESSAGE_BUFFER_SIZE - 1 →
      (read_serial prev avail).1 i = avail.getD i (Char.ofNat 0)) ∧
    (∀ j ∈ (read_serial prev avail).2.2.2, j < MESSAGE_BUFFER_SIZE) := by
  have hM : MESSAGE_BUFFER_SIZE = 4097 := rfl
  have hmin : min avail.length (MESSAGE_BUFFER_SIZE - 1)
      = MESSAGE_BUFFER_SIZE - 1 := Nat.min_eq_right (by omega)
  rw [read_serial_eq, hmin]
  have hlen : (avail.take (MESSAGE_BUFFER_SIZE - 1)).length
      = MESSAGE_BUFFER_SIZE - 1 := by
    rw [List.length_take]; omega
  refine ⟨rfl, decide_eq_true (by omega), ?_, ?_⟩
  · intro i hi
    dsimp only
    have hne : i ≠ MESSAGE_BUFFER_SIZE - 1 := by omega
    rw [write_buf_other _ _ _ _ hne,
        writeList_get _ _ _ _ (Nat.zero_le _) (by rw [hlen]; omega),
        Nat.sub_zero, getD_take _ _ _ _ hi]
  · intro j hj
    rcases List.mem_append.mp hj with hj1 | hj2
    · have := List.mem_range'_1.mp hj1
      omega
    · simp only [List.mem_singleton] at hj2
      omega

/-- C4: for a source offering fewer than `MESSAGE_BUFFER_SIZE` bytes,
`read_serial` stores exactly those bytes in arrival order, null-terminates
them, leaves every higher cell cleared, reports no overflow, and its
result does not depend on the buffer content left by any previous call. -/
theorem C4_reads_exactly (prev prev' : ℕ → Char) (avail : List Char)
    (h : avail.length < MESSAGE_BUFFER_SIZE) :
    (read_serial prev avail).2.1 = avail.length ∧
    (read_serial prev avail).2.2.1 = false ∧
    (∀ i, i < avail.length →
      (read_serial prev avail).1 i = avail.getD i (Char.ofNat 0)) ∧
    (read_serial prev avail).1 avail.length = Char.ofNat 0 ∧
    (∀ i, avail.length < i → (read_serial prev avail).1 i = Char.ofNat 0) ∧
    read_serial prev avail = read_serial prev' avail := by
  have hM : MESSAGE_BUFFER_SIZE = 4097 := rfl
  have hK : avail.length ≤ MESSAGE_BUFFER_SIZE - 1 := by omega
  have htake : avail.take (MESSAGE_BUFFER_SIZE - 1) = avail :=
    List.take_of_length_le hK
  have hmin : min avail.length (MESSAGE_BUFFER_SIZE - 1) = avail.length :=
    Nat.min_eq_left hK
  rw [read_serial_eq prev avail, read_serial_eq prev' avail, htake, hmin]
  refine ⟨rfl, decide_eq_false (by omega), ?_, write_buf_self _ _ _, ?_, rfl⟩
  · intro i hi
    dsimp only
    have hne : i ≠ avail.length := by omega
    rw [write_buf_other _ _ _ _ hne,
        writeList_get _ _ _ _ (Nat.zero_le _) (by omega), Nat.sub_zero]
  · intro i hi
    dsimp only
    have hne : i ≠ avail.length := by omega
    rw [write_buf_other _ _ _ _ hne,
        writeList_of_ge _ _ _ _ (by omega)]
    rfl

/-- Witness for C3: a source offering 4097 copies of `'a'`. -/
theorem C3_overflow_truncates_witness :
    MESSAGE_BUFFER_SIZE ≤ (List.replicate 4097 (Char.ofNat 97)).length ∧
    ((read_serial memset_buf (List.replicate 4097 (Char.ofNat 97))).2.1
        = MESSAGE_BUFFER_SIZE - 1 ∧
     (read_serial memset_buf (List.replicate 4097 (Char.ofNat 97))).2.2.1
        = true ∧
     (∀ i, i < MESSAGE_BUFFER_SIZE - 1 →
       (read_serial memset_buf (List.replicate 4097 (Char.ofNat 97))).1 i
          = (List.replicate 4097 (Char.ofNat 97)).getD i (Char.ofNat 0)) ∧
     (∀ j ∈ (read_serial memset_buf
          (List.replicate 4097 (Char.ofNat 97))).2.2.2,
        j < MESSAGE_BUFFER_SIZE)) :=
  ⟨by rw [List.length_replicate]; exact Nat.le.refl,
   C3_overflow_truncates memset_buf _
     (by rw [List.length_replicate]; exact Nat.le.refl)⟩

/-- Witness for C4: the two-byte frame "ab" read over a dirty previous
buffer holding `'z'` everywhere. -/
theorem C4_reads_exactly_witness :
    [Char.ofNat 97, Char.ofNat 98].length < MESSAGE_BUFFER_SIZE ∧
    ((read_serial (fun _ => Char.ofNat 122)
        [Char.ofNat 97, Char.ofNat 98]).2.1
        = [Char.ofNat 97, Char.ofNat 98].length ∧
     (read_serial (fun _ => Char.ofNat 122)
        [Char.ofNat 97, Char.ofNat 98]).2.2.1 = false ∧
     (∀ i, i < [Char.ofNat 97, Char.ofNat 98].length →
       (read_serial (fun _ => Char.ofNat 122)
          [Char.ofNat 97, Char.ofNat 98]).1 i
          = [Char.ofNat 97, Char.ofNat 98].getD i (Char.ofNat 0)) ∧
     (read_serial (fun _ => Char.ofNat 122)
        [Char.ofNat 97, Char.ofNat 98]).1
          [Char.ofNat 97, Char.ofNat 98].length = Char.ofNat 0 ∧
     (∀ i, [Char.ofNat 97, Char.ofNat 98].length < i →
       (read_serial (fun _ => Char.ofNat 122)
          [Char.ofNat 97, Char.ofNat 98]).1 i = Char.ofNat 0) ∧
     read_serial (fun _ => Char.ofNat 122) [Char.ofNat 97, Char.ofNat 98]
        = read_serial memset_buf [Char.ofNat 97, Char.ofNat 98]) :=
  ⟨by decide,
   C4_reads_exactly (fun _ => Char.ofNat 122) memset_buf _ (by decide)⟩

/-- C1 counterexample: at the start of an exchange with the source's
default 4000 ms timeout and `fill_buffer = false`, the claimed disjunctive
exit guard `elapsed ≥ timeout ∨ ¬fill_buffer` already holds (its second
disjunct is true), yet the loop condition of tracking.cpp line 143 is
still true, so the WAITING → DONE transition is not taken: the claimed
"exit iff the disjunction holds" is false at `elapsed = 0`. -/
theorem C1_disjunction_counterexample :
    wait_continue 0 4000 false = true ∧ ((4000 : ℕ) ≤ 0 ∨ false = false) :=
  ⟨by decide, Or.inr rfl⟩

/-- C1 (amended): the wait loop of `sendATcommand` exits —
`wait_continue` becomes false — exactly when the elapsed time has reached
the command's timeout AND the command's `fill_buffer` flag is false.  The
source's continuation condition `elapsed < timeout || ASSERT_BUFFER`
(line 143) negates to this conjunction, not to the spec's disjunction. -/
theorem C1_wait_exit_iff (elapsed timeout : ℕ) (fill_buffer : Bool) :
    wait_continue elapsed timeout fill_buffer = false ↔
      (timeout ≤ elapsed ∧ fill_buffer = false) := by
  simp [wait_continue, Nat.not_lt]

/-- With every iteration of the wait loop taking at least one tick and at
most `eps` ticks, and `fill_buffer = false`, the loop exits at the first
instant at or past the timeout — within `[timeout, timeout + eps)` — with
whatever the buffer then holds, for any modem behaviour `recv`. -/
theorem waitLoop_exits (dur : ℕ → ℕ) (recv : ℕ → Option (List Char))
    (timeout eps : ℕ) (hdur : ∀ j, 0 < dur j ∧ dur j ≤ eps) :
    ∀ fuel i elapsed buf, elapsed < timeout → timeout ≤ elapsed + fuel →
    ∃ t b, waitLoop dur recv timeout false fuel i elapsed buf
        = some (t, b) ∧ timeout ≤ t ∧ t < timeout + eps := by
  intro fuel
  induction fuel with
  | zero =>
    intro i elapsed buf h1 h2
    omega
  | succ fuel ih =>
    intro i elapsed buf h1 h2
    simp only [waitLoop]
    by_cases hc : elapsed + dur i < timeout
    · have hcont : wait_continue (elapsed + dur i) timeout false = true := by
        simp [wait_continue, hc]
      rw [hcont, if_pos rfl]
      have hd := (hdur i).1
      exact ih (i + 1) (elapsed + dur i) ((recv i).getD buf) hc (by omega)
    · have hcont : wait_continue (elapsed + dur i) timeout false = false := by
        simp [wait_continue, hc]
      rw [hcont, if_neg (by simp)]
      have hd := (hdur i).2
      exact ⟨elapsed + dur i, (recv i).getD buf, rfl, by omega, by omega⟩

/-- C7: with `timeoutMs = T > 0` and `fill_buffer = false`, and every poll
iteration lasting between one tick and `eps` ticks (one poll granularity),
`sendATcommand` transmits its command exactly once (no retry) and its wait
loop terminates within `[T, T + eps)` no matter what, if anything, the
modem sends; whatever the buffer holds at exit — possibly nothing — is the
captured response. -/
theorem C7_timeout_terminates (CMD : String) (T eps : ℕ) (dur : ℕ → ℕ)
    (recv : ℕ → Option (List Char)) (hT : 0 < T)
    (hdur : ∀ j, 0 < dur j ∧ dur j ≤ eps) :
    (sendATcommand CMD T false dur recv T).1 = [CMD] ∧
    ∃ t b, (sendATcommand CMD T false dur recv T).2 = some (t, b) ∧
      T ≤ t ∧ t < T + eps :=
  ⟨rfl, waitLoop_exits dur recv T eps hdur T 0 0 [] hT (by omega)⟩

/-- Witness for C7: command "AT", a 3-tick timeout, 1-tick polls, and a
modem that never replies. -/
theorem C7_timeout_terminates_witness :
    0 < 3 ∧ (∀ j : ℕ, 0 < (fun _ : ℕ => 1) j ∧ (fun _ : ℕ => 1) j ≤ 1) ∧
    ((sendATcommand "AT" 3 false (fun _ => 1) (fun _ => none) 3).1
        = ["AT"] ∧
     ∃ t b, (sendATcommand "AT" 3 false (fun _ => 1) (fun _ => none) 3).2
        = some (t, b) ∧ 3 ≤ t ∧ t < 3 + 1) :=
  ⟨by decide, fun j => ⟨Nat.one_pos, Nat.le.refl⟩,
   C7_timeout_terminates "AT" 3 1 (fun _ => 1) (fun _ => none) (by decide)
     (fun j => ⟨Nat.one_pos, Nat.le.refl⟩)⟩

/-- `String(x, 9)` always carries exactly nine fractional digits. -/
theorem fracPart9_length (x : ℚ) : (fracPart9 x).length = 9 :=
  fracDigits_length 9 _ _

/-- On a valid fix that differs from the last reported coordinates,
`gps_encode` copies the fix into `_lat`/`_long` and `_newLat`/`_newLong`,
raises `isLocationUpdated`, and issues the `PUT_REQUEST` exchanges. -/
theorem gps_encode_valid_changed (g : Fix) (s : TrackerState)
    (hv : g.valid = true) (hch : g.lat ≠ s._newLat ∨ g.lng ≠ s._newLong) :
    gps_encode g s =
      ({ s with _lat := g.lat, _long := g.lng, _newLat := g.lat,
                _newLong := g.lng, isLocationUpdated := true },
       PUT_REQUEST (gps_payload g.lat g.lng)) := by
  simp only [gps_encode, hv, if_true]
  rw [if_pos hch]

/-- On a valid fix equal to the last reported coordinates, `gps_encode`
takes the else branch: previous values are book-kept, the updated flag is
cleared, and nothing is uploaded. -/
theorem gps_encode_valid_same (g : Fix) (s : TrackerState)
    (hv : g.valid = true) (h1 : g.lat = s._newLat) (h2 : g.lng = s._newLong) :
    gps_encode g s =
      ({ s with _lat := g.lat, _long := g.lng, _prevLat := s._newLat,
                _prevLong := s._newLong, isLocationUpdated := false }, []) := by
  simp only [gps_encode, hv, if_true]
  rw [if_neg (by simp [h1, h2])]

/-- On an invalid fix from a state satisfying the `_lat = _newLat ∧
_long = _newLong` invariant, `gps_encode` changes nothing but the
book-keeping fields and uploads nothing. -/
theorem gps_encode_invalid (g : Fix) (s : TrackerState)
    (hv : g.valid = false)
    (hinv : s._lat = s._newLat ∧ s._long = s._newLong) :
    gps_encode g s =
      ({ s with _prevLat := s._newLat, _prevLong := s._newLong,
                isLocationUpdated := false }, []) := by
  simp only [gps_encode, hv, Bool.false_eq_true, if_false]
  rw [if_neg (by simp [hinv.1, hinv.2])]

/-- Both branches of `gps_encode` leave `_lat = _newLat` and
`_long = _newLong` in the post-state. -/
theorem gps_encode_inv (g : Fix) (s : TrackerState) :
    (gps_encode g s).1._lat = (gps_encode g s).1._newLat ∧
    (gps_encode g s).1._long = (gps_encode g s).1._newLong := by
  simp only [gps_encode]
  split_ifs with hv h1 h2 <;> simp_all

/-- Folding `gps_encode` over any frame sequence preserves the
`_lat = _newLat ∧ _long = _newLong` invariant. -/
theorem foldl_inv (gs : List Fix) (s : TrackerState)
    (h : s._lat = s._newLat ∧ s._long = s._newLong) :
    (gs.foldl (fun s g => (gps_encode g s).1) s)._lat
        = (gs.foldl (fun s g => (gps_encode g s).1) s)._newLat ∧
    (gs.foldl (fun s g => (gps_encode g s).1) s)._long
        = (gs.foldl (fun s g => (gps_encode g s).1) s)._newLong := by
  induction gs generalizing s with
  | nil => exact h
  | cons g rest ih =>
    simp only [List.foldl_cons]
    exact ih _ (gps_encode_inv g s)

/-- Every state reachable from the all-zero globals satisfies the
invariant. -/
theorem run_inv (gs : List Fix) :
    (run gs)._lat = (run gs)._newLat ∧
    (run gs)._long = (run gs)._newLong :=
  foldl_inv gs initState ⟨rfl, rfl⟩

/-- C2: for a valid decoded fix, `gps_encode` sets `isLocationUpdated`
exactly when the fix differs from the last reported coordinates in either
component, under exact equality of coordinates (no epsilon) — so any
nonzero difference, however small, yields `updated = true`. -/
theorem C2_updated_iff (g : Fix) (s : TrackerState) (hv : g.valid = true) :
    (gps_encode g s).1.isLocationUpdated = true ↔
      (g.lat ≠ s._newLat ∨ g.lng ≠ s._newLong) := by
  by_cases h : g.lat ≠ s._newLat ∨ g.lng ≠ s._newLong
  · rw [gps_encode_valid_changed g s hv h]
    simpa using h
  · push_neg at h
    rw [gps_encode_valid_same g s hv h.1 h.2]
    simp [h.1, h.2]

/-- Witness for C2: the scenario fix against the all-zero initial state. -/
theorem C2_updated_iff_witness :
    (Fix.mk lat0 lng0 true).valid = true ∧
    ((gps_encode (Fix.mk lat0 lng0 true) initState).1.isLocationUpdated
        = true ↔
      ((Fix.mk lat0 lng0 true).lat ≠ initState._newLat ∨
       (Fix.mk lat0 lng0 true).lng ≠ initState._newLong)) :=
  ⟨rfl, C2_updated_iff (Fix.mk lat0 lng0 true) initState rfl⟩

/-- C5: feeding the same valid, differing fix twice uploads on the first
ingestion only; the second ingestion clears `isLocationUpdated` and issues
no exchange. -/
theorem C5_repeat_fix_idempotent (g : Fix) (s : TrackerState)
    (hv : g.valid = true)
    (hch : g.lat ≠ s._newLat ∨ g.lng ≠ s._newLong) :
    (gps_encode g s).2 ≠ [] ∧
    (gps_encode g (gps_encode g s).1).1.isLocationUpdated = false ∧
    (gps_encode g (gps_encode g s).1).2 = [] := by
  rw [gps_encode_valid_changed g s hv hch]
  dsimp only
  refine ⟨by simp [PUT_REQUEST], ?_, ?_⟩
  · rw [gps_encode_valid_same g _ hv rfl rfl]
  · rw [gps_encode_valid_same g _ hv rfl rfl]

/-- Witness for C5: the scenario fix ingested twice from the initial
state. -/
theorem C5_repeat_fix_idempotent_witness :
    (Fix.mk lat0 lng0 true).valid = true ∧
    ((Fix.mk lat0 lng0 true).lat ≠ initState._newLat ∨
     (Fix.mk lat0 lng0 true).lng ≠ initState._newLong) ∧
    ((gps_encode (Fix.mk lat0 lng0 true) initState).2 ≠ [] ∧
     (gps_encode (Fix.mk lat0 lng0 true)
        (gps_encode (Fix.mk lat0 lng0 true) initState).1).1.isLocationUpdated
        = false ∧
     (gps_encode (Fix.mk lat0 lng0 true)
        (gps_encode (Fix.mk lat0 lng0 true) initState).1).2 = []) :=
  ⟨rfl, Or.inl (by decide),
   C5_repeat_fix_idempotent (Fix.mk lat0 lng0 true) initState rfl
     (Or.inl (by decide))⟩

/-- C6: a valid fix differing from the last reported one makes the upload
pipeline issue exactly two exchanges in order — the length-declaration
command `AT+QHTTPPUT=<payload length>,30,60`, then the literal payload —
where the payload is the JSON object over `String(_, 9)`-formatted
coordinates, each carrying exactly nine fractional digits. -/
theorem C6_upload_two_exchanges (g : Fix) (s : TrackerState)
    (hv : g.valid = true)
    (hch : g.lat ≠ s._newLat ∨ g.lng ≠ s._newLong) :
    (gps_encode g s).2
      = ["AT+QHTTPPUT=" ++ toString (gps_payload g.lat g.lng).length
           ++ ",30,60", gps_payload g.lat g.lng] ∧
    gps_payload g.lat g.lng
      = "\x7b\"lat\":" ++ fmt9 g.lat ++ ",\"long\":" ++ fmt9 g.lng
          ++ "\x7d" ∧
    (fracPart9 g.lat).length = 9 ∧ (fracPart9 g.lng).length = 9 := by
  refine ⟨?_, rfl, fracPart9_length g.lat, fracPart9_length g.lng⟩
  rw [gps_encode_valid_changed g s hv hch]
  rfl

/-- Witness for C6: the scenario fix from the initial state. -/
theorem C6_upload_two_exchanges_witness :
    (Fix.mk lat0 lng0 true).valid = true ∧
    ((Fix.mk lat0 lng0 true).lat ≠ initState._newLat ∨
     (Fix.mk lat0 lng0 true).lng ≠ initState._newLong) ∧
    ((gps_encode (Fix.mk lat0 lng0 true) initState).2
       = ["AT+QHTTPPUT=" ++ toString (gps_payload lat0 lng0).length
            ++ ",30,60", gps_payload lat0 lng0] ∧
     gps_payload lat0 lng0
       = "\x7b\"lat\":" ++ fmt9 lat0 ++ ",\"long\":" ++ fmt9 lng0
           ++ "\x7d" ∧
     (fracPart9 lat0).length = 9 ∧ (fracPart9 lng0).length = 9) :=
  ⟨rfl, Or.inl (by decide),
   C6_upload_two_exchanges (Fix.mk lat0 lng0 true) initState rfl
     (Or.inl (by decide))⟩

/-- The spec's end-to-end scenario, fully evaluated: decoding
lat=1.234567890, lng=36.987654321 from the initial state issues exactly
`AT+QHTTPPUT=39,30,60` followed by the 39-byte JSON payload. -/
theorem end_to_end_scenario :
    (gps_encode (Fix.mk lat0 lng0 true) initState).2
      = ["AT+QHTTPPUT=39,30,60",
         "\x7b\"lat\":1.234567890,\"long\":36.987654321\x7d"] := by
  decide

/-- C8: when the decoder reports no valid location, `gps_encode` from any
reachable tracker state leaves the current fix and the comparison baseline
untouched, clears the updated flag, and issues no upload. -/
theorem C8_invalid_fix_ignored (gs : List Fix) (g : Fix)
    (hv : g.valid = false) :
    (gps_encode g (run gs)).1._lat = (run gs)._lat ∧
    (gps_encode g (run gs)).1._long = (run gs)._long ∧
    (gps_encode g (run gs)).2 = [] ∧
    (gps_encode g (run gs)).1._newLat = (run gs)._newLat ∧
    (gps_encode g (run gs)).1._newLong = (run gs)._newLong ∧
    (gps_encode g (run gs)).1.isLocationUpdated = false := by
  rw [gps_encode_invalid g (run gs) hv (run_inv gs)]
  exact ⟨rfl, rfl, rfl, rfl, rfl, rfl⟩

/-- Witness for C8: an invalid fix ingested right after start-up. -/
theorem C8_invalid_fix_ignored_witness :
    (Fix.mk lat0 lng0 false).valid = false ∧
    ((gps_encode (Fix.mk lat0 lng0 false) (run [])).1._lat
        = (run [])._lat ∧
     (gps_encode (Fix.mk lat0 lng0 false) (run [])).1._long
        = (run [])._long ∧
     (gps_encode (Fix.mk lat0 lng0 false) (run [])).2 = [] ∧
     (gps_encode (Fix.mk lat0 lng0 false) (run [])).1._newLat
        = (run [])._newLat ∧
     (gps_encode (Fix.mk lat0 lng0 false) (run [])).1._newLong
        = (run [])._newLong ∧
     (gps_encode (Fix.mk lat0 lng0 false) (run [])).1.isLocationUpdated
        = false) :=
  ⟨rfl, C8_invalid_fix_ignored [] (Fix.mk lat0 lng0 false) rfl⟩

/-- C10: after every `gps_encode` step `_lat = _newLat` and
`_long = _newLong` — in both branches, hence in every state reachable from
the all-zero globals — and the updated flag can be true while the stored
coordinates already agree, as the scenario fix from the initial state
shows. -/
theorem C10_current_agrees_with_reported :
    (∀ (g : Fix) (s : TrackerState),
       (gps_encode g s).1._lat = (gps_encode g s).1._newLat ∧
       (gps_encode g s).1._long = (gps_encode g s).1._newLong) ∧
    (∀ gs : List Fix,
       (run gs)._lat = (run gs)._newLat ∧
       (run gs)._long = (run gs)._newLong) ∧
    ((gps_encode (Fix.mk lat0 lng0 true) initState).1.isLocationUpdated
        = true ∧
     (gps_encode (Fix.mk lat0 lng0 true) initState).1._lat
        = (gps_encode (Fix.mk lat0 lng0 true) initState).1._newLat) :=
  ⟨gps_encode_inv, run_inv, by decide⟩

/-- C9: the restart handler's observable action trace, for either outcome
of the response send: it disconnects WiFi and turns the radio off first,
only then attempts the `server.send` response, and proceeds to
`ESP.restart()` unconditionally. -/
theorem C9_restart_trace (send_ok : Bool) :
    sys_restart send_ok
      = [SysEvent.wifi_disconnect, SysEvent.wifi_off,
         SysEvent.send_response, SysEvent.delay_ms 5000,
         SysEvent.esp_restart] := rfl

end Tracking
